import Mathlib

/-!
Verification development for the "Show, Attend and Tell" caption generator
(`src/core/model.py`, class `CaptionGenerator`).

The computation graph is embedded shallowly over the rationals.  Tensors are
total functions from (batch, ...) indices to `ℚ`; batch size `N` and the
dimension parameters `L D M H V T` are carried explicitly and every reduction
(`reduce_mean`, `reduce_sum`, matrix products, softmax denominators) sums over
`Finset.range` of the relevant dimension.  The tensor engine's transcendental
primitives (`tf.exp`, `tf.log`, `tf.nn.tanh`, `tf.sigmoid`) are opaque numeric
functions supplied by an `Act` bundle, matching the specification's treatment
of the tensor substrate as a black-box numeric engine.  Dropout
(`tf.nn.dropout`) is modelled with an explicit injectable mask source, as the
specification directs.  The helper layers imported from `layers.py` are not
part of the provided sources; each is modelled from the specification text and
marked as such in its doc comment.  Everything taken from `model.py` itself
cites the relevant lines.
-/

namespace ShowAttendTell

/-- Indexed vector of rationals: index ranges are tracked externally. -/
abbrev Vec := ℕ → ℚ

/-- Matrix (for example batch × feature) of rationals. -/
abbrev Mat := ℕ → ℕ → ℚ

/-- Rank-3 tensor, such as the (N, L, D) feature grid. -/
abbrev Tensor3 := ℕ → ℕ → ℕ → ℚ

/-- Sum of `f` over indices `0, ..., n-1`; models a tensor reduction axis. -/
def sumR (n : ℕ) (f : ℕ → ℚ) : ℚ :=
  Finset.sum (Finset.range n) f

/-- Black-box numeric-engine primitives (tf.exp, tf.log, tf.nn.tanh,
tf.sigmoid).  The specification treats the tensor engine as an external
numeric substrate, so these are opaque parameters of the embedding. -/
structure Act where
  exp : ℚ → ℚ
  log : ℚ → ℚ
  tanh : ℚ → ℚ
  sigmoid : ℚ → ℚ

/-- Modelled from the spec: `tf.nn.dropout(x, keep_prob)` of the external
tensor engine, with an explicit injectable random mask.  Kept entries are
scaled by `1 / keep_prob`; the mask holds 1 for kept units and 0 for dropped
units. -/
def dropoutQ (keep : ℚ) (mask : Mat) (x : Mat) : Mat :=
  fun n j => x n j * mask n j / keep

/-- Modelled from the spec: `affine_forward` of the missing `layers.py` -
a single affine map `x W + b` applied along the last axis (spec section 4.6,
used for every affine layer). -/
def affine_forward (x : Mat) (W : Mat) (b : Vec) (dIn : ℕ) : Mat :=
  fun n j => sumR dIn (fun i => x n i * W i j) + b j

/-- Modelled from the spec: `affine_sigmoid_forward` of the missing
`layers.py` - affine map of the hidden state to one scalar followed by
sigmoid; the selector gate of spec section 4.4. -/
def affine_sigmoid_forward (A : Act) (h : Mat) (W : Mat) (b : Vec) (H : ℕ) : Vec :=
  fun n => A.sigmoid (sumR H (fun i => h n i * W i 0) + b 0)

/-- Modelled from the spec: `word_embedding_forward` of the missing
`layers.py` - row lookup in the word-embedding matrix (spec section 3,
WordEmbeddingMatrix). -/
def word_embedding_forward (idx : ℕ → ℕ) (Wemb : Mat) : Mat :=
  fun n m => Wemb (idx n) m

/-- Modelled from the spec: `project_feature` of the missing `layers.py` -
one linear map along the feature axis, shared across locations (spec
section 4.2, Feature Projector). -/
def project_feature (features : Tensor3) (W : Mat) (D : ℕ) : Tensor3 :=
  fun n l j => sumR D (fun i => features n l i * W i j)

/-- Modelled from the spec: `init_lstm` of the missing `layers.py` - the
State Initializer of spec section 4.1: two stacked affine+tanh layers with
optional dropout after each, mapping mean-pooled features to an initial
recurrent state. -/
def init_lstm (A : Act) (x : Mat) (W1 : Mat) (b1 : Vec) (W2 : Mat) (b2 : Vec)
    (D H : ℕ) (useDrop : Bool) (m1 m2 : Mat) : Mat :=
  let h1 : Mat := fun n j => A.tanh (affine_forward x W1 b1 D n j)
  let h1d : Mat := if useDrop then dropoutQ (1/2) m1 h1 else h1
  let h2 : Mat := fun n j => A.tanh (affine_forward h1d W2 b2 H n j)
  if useDrop then dropoutQ (1/2) m2 h2 else h2

/-- Modelled from the spec: `attention_forward` of the missing `layers.py` -
the Attention Module of spec section 4.3: project the hidden state to the
feature space, broadcast-add to the projected features plus bias, apply the
nonlinearity (tanh), reduce the feature axis with the learned vector `W_att`
to per-location logits, softmax along the `L` locations, and form the context
vector as the weighted sum of the raw features.  Returns
(ContextVector, AttentionWeights). -/
def attention_forward (A : Act) (features featProj : Tensor3) (h : Mat)
    (Wph : Mat) (bp : Vec) (Watt : Mat) (L D H : ℕ) : Mat × Mat :=
  let hproj : Mat := fun n j => sumR H (fun i => h n i * Wph i j)
  let e : Mat := fun n l =>
    sumR D (fun j => A.tanh (featProj n l j + hproj n j + bp j) * Watt j 0)
  let alpha : Mat := fun n l => A.exp (e n l) / sumR L (fun l2 => A.exp (e n l2))
  let context : Mat := fun n j => sumR L (fun l => alpha n l * features n l j)
  (context, alpha)

/-- Modelled from the spec: `rnn_step_forward` of the missing `layers.py` -
the plain recurrent-cell variant of spec section 4.5: next hidden state is
`tanh` of an affine combination of the previous word embedding, previous
hidden state and context vector. -/
def rnn_step_forward (A : Act) (x h context : Mat)
    (Wx Wh Wz : Mat) (b : Vec) (M H D : ℕ) : Mat :=
  fun n j => A.tanh (sumR M (fun i => x n i * Wx i j)
    + sumR H (fun i => h n i * Wh i j)
    + sumR D (fun i => context n i * Wz i j) + b j)

/-- Modelled from the spec: `lstm_step_forward` of the missing `layers.py` -
the gated variant of spec section 4.5: one fused affine map partitioned into
four `H`-wide blocks (input gate, forget gate, output gate, candidate);
sigmoid on the three gates, tanh on the candidate; the usual LSTM state
update.  Returns (next hidden, next cell). -/
def lstm_step_forward (A : Act) (x h c context : Mat)
    (Wx Wh Wz : Mat) (b : Vec) (M H D : ℕ) : Mat × Mat :=
  let a : Mat := fun n j => sumR M (fun i => x n i * Wx i j)
    + sumR H (fun i => h n i * Wh i j)
    + sumR D (fun i => context n i * Wz i j) + b j
  let ig : Mat := fun n j => A.sigmoid (a n j)
  let fg : Mat := fun n j => A.sigmoid (a n (H + j))
  let og : Mat := fun n j => A.sigmoid (a n (2 * H + j))
  let cand : Mat := fun n j => A.tanh (a n (3 * H + j))
  let nextC : Mat := fun n j => fg n j * c n j + ig n j * cand n j
  let nextH : Mat := fun n j => og n j * A.tanh (nextC n j)
  (nextH, nextC)

/-- Modelled from the spec: `softmax_loss` of the missing `layers.py` -
masked softmax cross-entropy of spec section 4.7: per example, minus the log
of the softmax probability of the target class, multiplied by the mask (zero
contribution at masked positions), summed over the batch. -/
def softmax_loss (A : Act) (logits : Mat) (labels : ℕ → ℕ) (mask : ℕ → Bool)
    (N V : ℕ) : ℚ :=
  sumR N (fun n =>
    if mask n then
      -(A.log (A.exp (logits n (labels n)) / sumR V (fun v => A.exp (logits n v))))
    else 0)

/-- Modelled from the spec: `tf.argmax(logits, 1)` of the external tensor
engine - index of the largest entry among `0, ..., V-1`, first index on ties
(greedy decoding of spec section 4.8). -/
def argmaxR (f : ℕ → ℚ) (V : ℕ) : ℕ :=
  (List.range V).foldl (fun best v => if f best < f v then v else best) 0

/-- Constructed caption-generator instance: the hyperparameters and derived
values stored by `CaptionGenerator.__init__` (`model.py` lines 29-51).
`nullIdx` is the source's `_null`, `startIdx` its `_start` (which
`word_to_idx.get` leaves as `None` when the vocabulary has no START token). -/
structure CaptionGenerator where
  cellType : String
  prev2out : Bool
  ctx2out : Bool
  alpha_c : ℚ
  selector : Bool
  useDropout : Bool
  V : ℕ
  L : ℕ
  D : ℕ
  M : ℕ
  H : ℕ
  T : ℕ
  nullIdx : ℕ
  startIdx : Option ℕ

/-- All learnable weight tensors created in `CaptionGenerator.__init__`
(`model.py` lines 53-94).  They are opaque inputs of the forward passes:
the random initializers live outside the verified computation. -/
structure Weights where
  W_embed : Mat
  W1_init_h : Mat
  b1_init_h : Vec
  W2_init_h : Mat
  b2_init_h : Vec
  W1_init_c : Mat
  b1_init_c : Vec
  W2_init_c : Mat
  b2_init_c : Vec
  W_proj_x : Mat
  W_proj_h : Mat
  b_proj : Vec
  W_att : Mat
  Wx : Mat
  Wh : Mat
  Wz : Mat
  b : Vec
  W_ctx2out : Mat
  W_sel : Mat
  b_sel : Vec
  W1_decode : Mat
  b1_decode : Vec
  W2_decode : Mat
  b2_decode : Vec

/-- Injectable randomness for every dropout site of `build_model`:
the masks inside the two `init_lstm` calls (`model.py` lines 122-123), the
per-step mask on the hidden state (line 152) and the per-step mask on the
decoder intermediate `logits_h` (line 162). -/
structure DropMasks where
  initH1 : Mat
  initH2 : Mat
  initC1 : Mat
  initC2 : Mat
  stepH : ℕ → Mat
  stepLogits : ℕ → Mat

/-- Python-dict lookup on the `word_to_idx` association list
(`word_to_idx.get(key, None)` and `word_to_idx[key]`). -/
def lookup (xs : List (String × ℕ)) (w : String) : Option ℕ :=
  match xs with
  | [] => none
  | (k, v) :: rest => if k = w then some v else lookup rest w

/-- `CaptionGenerator.__init__` (`model.py` lines 29-51): validates the cell
variant first (lines 32-33) and raises on any unrecognized value before
anything else is touched; then stores the hyperparameters, `V` as the
vocabulary size, `_null` from the mandatory NULL token (a Python `KeyError`
when absent) and `_start` from the optional START token via `.get`. -/
def CaptionGenerator.init (wordToIdx : List (String × ℕ)) (dimFeature : ℕ × ℕ)
    (dimEmbed dimHidden nTimeStep : ℕ) (cellType : String)
    (prev2out ctx2out : Bool) (alpha_c : ℚ) (selector useDropout : Bool) :
    Except String CaptionGenerator :=
  if cellType ≠ "rnn" ∧ cellType ≠ "lstm" then
    Except.error ("Invalid cell_type " ++ cellType)
  else
    match lookup wordToIdx "<NULL>" with
    | none => Except.error "KeyError: <NULL>"
    | some nullIdx =>
        Except.ok ⟨cellType, prev2out, ctx2out, alpha_c, selector, useDropout,
          wordToIdx.length, dimFeature.1, dimFeature.2, dimEmbed, dimHidden,
          nTimeStep, nullIdx, lookup wordToIdx "<START>"⟩

/-- `tf.reduce_mean(features, 1)` (`model.py` lines 121 and 193): mean of the
feature grid over the `L` spatial locations. -/
def meanFeatures (features : Tensor3) (L : ℕ) : Mat :=
  fun n j => sumR L (fun l => features n l j) / (L : ℚ)

/-- Initial hidden state of `build_model` (`model.py` line 122). -/
def modelH0 (A : Act) (g : CaptionGenerator) (w : Weights) (features : Tensor3)
    (d : DropMasks) : Mat :=
  init_lstm A (meanFeatures features g.L) w.W1_init_h w.b1_init_h
    w.W2_init_h w.b2_init_h g.D g.H g.useDropout d.initH1 d.initH2

/-- Initial cell state of `build_model` (`model.py` line 123). -/
def modelC0 (A : Act) (g : CaptionGenerator) (w : Weights) (features : Tensor3)
    (d : DropMasks) : Mat :=
  init_lstm A (meanFeatures features g.L) w.W1_init_c w.b1_init_c
    w.W2_init_c w.b2_init_c g.D g.H g.useDropout d.initC1 d.initC2

/-- Context-vector computation of one step (`model.py` lines 135-140 and
210-215): run the Attention Module, then, when the selector is enabled, scale
the context by the sigmoid gate `beta`.  Returns (context after the optional
gate, attention weights). -/
def gatedContext (A : Act) (g : CaptionGenerator) (w : Weights)
    (features featProj : Tensor3) (h : Mat) : Mat × Mat :=
  let p := attention_forward A features featProj h w.W_proj_h w.b_proj w.W_att
    g.L g.D g.H
  (if g.selector then
      fun n j => affine_sigmoid_forward A h w.W_sel w.b_sel g.H n * p.1 n j
    else p.1, p.2)

/-- Recurrent-cell dispatch (`model.py` lines 143-149 and 218-224): the plain
variant updates only the hidden state and carries the cell state unchanged,
the gated variant updates both.  The final fallback is unreachable for
instances produced by `CaptionGenerator.init`, which admits exactly the two
recognized variants. -/
def cellAdvance (A : Act) (g : CaptionGenerator) (w : Weights)
    (x h c context : Mat) : Mat × Mat :=
  if g.cellType = "rnn" then
    (rnn_step_forward A x h context w.Wx w.Wh w.Wz w.b g.M g.H g.D, c)
  else if g.cellType = "lstm" then
    lstm_step_forward A x h c context w.Wx w.Wh w.Wz w.b g.M g.H g.D
  else (h, c)

/-- Result of one training step: the state carried to the next step (the
hidden state is carried before the dropout of `model.py` line 152 is
applied), the attention weights appended to `alpha_list`, and the masked
cross-entropy added to the loss. -/
structure ModelStep where
  nextH : Mat
  nextC : Mat
  alpha : Mat
  stepLoss : ℚ

/-- One iteration of the `build_model` unroll (`model.py` lines 133-166):
embed the teacher-forced input word `captions_in[:, t]`, compute the gated
context and attention weights, advance the recurrent cell, optionally apply
dropout to the new hidden state (line 151-152, guarded by `use_dropout`),
decode to logits with the optional `prev2out` and `ctx2out` additions, apply
tanh, apply dropout to the result unconditionally (line 162), decode to
vocabulary logits and accumulate the masked softmax loss against
`captions_out[:, t]`. -/
def modelStepFull (A : Act) (g : CaptionGenerator) (w : Weights) (N : ℕ)
    (features featProj : Tensor3) (captions : ℕ → ℕ → ℕ) (d : DropMasks)
    (t : ℕ) (h c : Mat) : ModelStep :=
  let x : Mat := word_embedding_forward (fun n => captions n t) w.W_embed
  let pc := gatedContext A g w features featProj h
  let hc := cellAdvance A g w x h c pc.1
  let hDrop : Mat := if g.useDropout then dropoutQ (1/2) (d.stepH t) hc.1 else hc.1
  let l1 : Mat := affine_forward hDrop w.W1_decode w.b1_decode g.H
  let l2 : Mat := if g.prev2out then fun n m => l1 n m + x n m else l1
  let l3 : Mat := if g.ctx2out then
      fun n m => l2 n m + sumR g.D (fun i => pc.1 n i * w.W_ctx2out i m)
    else l2
  let logitsH : Mat := fun n m => A.tanh (l3 n m)
  let logitsHd : Mat := dropoutQ (1/2) (d.stepLogits t) logitsH
  let logitsOut : Mat := affine_forward logitsHd w.W2_decode w.b2_decode g.M
  let sl : ℚ := softmax_loss A logitsOut (fun n => captions n (t + 1))
    (fun n => decide (captions n (t + 1) ≠ g.nullIdx)) N g.V
  ⟨hc.1, hc.2, pc.2, sl⟩

/-- Accumulated state of the `build_model` unroll after some number of steps:
carried hidden and cell state, running loss, and the `alpha_list` of
attention weights. -/
structure ModelLoopState where
  h : Mat
  c : Mat
  loss : ℚ
  alphas : List Mat

/-- The `for t in range(T)` loop of `build_model` (`model.py` lines 131-166)
as a fold: starting from the initial states, zero loss and empty
`alpha_list`, each iteration runs `modelStepFull` and accumulates. -/
def modelLoop (A : Act) (g : CaptionGenerator) (w : Weights) (N : ℕ)
    (features featProj : Tensor3) (captions : ℕ → ℕ → ℕ) (d : DropMasks)
    (h0 c0 : Mat) : ℕ → ModelLoopState
  | 0 => ⟨h0, c0, 0, []⟩
  | t + 1 =>
      let p := modelLoop A g w N features featProj captions d h0 c0 t
      let r := modelStepFull A g w N features featProj captions d t p.h p.c
      ⟨r.nextH, r.nextC, p.loss + r.stepLoss, p.alphas ++ [r.alpha]⟩

/-- `CaptionGenerator.build_model` (`model.py` lines 101-175): initial states
from the mean-pooled features, the feature grid projected once, the `T`-step
teacher-forced unroll, then - when `alpha_c > 0` - the doubly stochastic
regularizer `alpha_c * sum((16./196 - sum_t alpha_t)^2)` of line 172, and the
final division by the batch size. -/
def buildModel (A : Act) (g : CaptionGenerator) (w : Weights) (N : ℕ)
    (features : Tensor3) (captions : ℕ → ℕ → ℕ) (d : DropMasks) : ℚ :=
  let h0 := modelH0 A g w features d
  let c0 := modelC0 A g w features d
  let featProj := project_feature features w.W_proj_x g.D
  let st := modelLoop A g w N features featProj captions d h0 c0 g.T
  let loss := if 0 < g.alpha_c then
      st.loss + g.alpha_c * sumR N (fun n => sumR g.L (fun l =>
        ((16 : ℚ) / 196 - (st.alphas.map (fun a => a n l)).sum) ^ 2))
    else st.loss
  loss / (N : ℚ)

/-- Hidden and cell state of the training unroll before step `t`, defined by
direct recursion; used to state closed-form properties of `buildModel`. -/
def modelHC (A : Act) (g : CaptionGenerator) (w : Weights) (N : ℕ)
    (features featProj : Tensor3) (captions : ℕ → ℕ → ℕ) (d : DropMasks)
    (h0 c0 : Mat) : ℕ → Mat × Mat
  | 0 => (h0, c0)
  | t + 1 =>
      let p := modelHC A g w N features featProj captions d h0 c0 t
      let r := modelStepFull A g w N features featProj captions d t p.1 p.2
      (r.nextH, r.nextC)

/-- The full result of training step `t` in terms of the state trace. -/
def modelStepAt (A : Act) (g : CaptionGenerator) (w : Weights) (N : ℕ)
    (features featProj : Tensor3) (captions : ℕ → ℕ → ℕ) (d : DropMasks)
    (h0 c0 : Mat) (t : ℕ) : ModelStep :=
  modelStepFull A g w N features featProj captions d t
    (modelHC A g w N features featProj captions d h0 c0 t).1
    (modelHC A g w N features featProj captions d h0 c0 t).2

/-- Masked cross-entropy contributed by training step `t`. -/
def modelStepLoss (A : Act) (g : CaptionGenerator) (w : Weights) (N : ℕ)
    (features featProj : Tensor3) (captions : ℕ → ℕ → ℕ) (d : DropMasks)
    (h0 c0 : Mat) (t : ℕ) : ℚ :=
  (modelStepAt A g w N features featProj captions d h0 c0 t).stepLoss

/-- Attention weights produced at training step `t`. -/
def modelAlphaAt (A : Act) (g : CaptionGenerator) (w : Weights) (N : ℕ)
    (features featProj : Tensor3) (captions : ℕ → ℕ → ℕ) (d : DropMasks)
    (h0 c0 : Mat) (t : ℕ) : Mat :=
  (modelStepAt A g w N features featProj captions d h0 c0 t).alpha

/-- Context vector passed to the recurrent cell and the decoder at training
step `t` (after the optional selector gate). -/
def modelContextAt (A : Act) (g : CaptionGenerator) (w : Weights) (N : ℕ)
    (features featProj : Tensor3) (captions : ℕ → ℕ → ℕ) (d : DropMasks)
    (h0 c0 : Mat) (t : ℕ) : Mat :=
  (gatedContext A g w features featProj
    (modelHC A g w N features featProj captions d h0 c0 t).1).1

/-- Accumulated state of the `build_sampler` unroll: carried hidden and cell
state, the `alpha_list` of attention maps and the `sampled_word_list`. -/
structure SamplerState where
  h : Mat
  c : Mat
  alphas : List Mat
  words : List (ℕ → ℕ)

/-- Initial hidden state of `build_sampler` (`model.py` line 194): `init_lstm`
is called without the dropout argument, so sampling uses no dropout (spec
section 4.8); the mask arguments are therefore inert. -/
def samplerH0 (A : Act) (g : CaptionGenerator) (w : Weights)
    (features : Tensor3) : Mat :=
  init_lstm A (meanFeatures features g.L) w.W1_init_h w.b1_init_h
    w.W2_init_h w.b2_init_h g.D g.H false (fun _ _ => 1) (fun _ _ => 1)

/-- Initial cell state of `build_sampler` (`model.py` line 195). -/
def samplerC0 (A : Act) (g : CaptionGenerator) (w : Weights)
    (features : Tensor3) : Mat :=
  init_lstm A (meanFeatures features g.L) w.W1_init_c w.b1_init_c
    w.W2_init_c w.b2_init_c g.D g.H false (fun _ _ => 1) (fun _ _ => 1)

/-- Input embedding of sampler step `t` (`model.py` lines 203-207): at `t = 0`
the start-token index `s` is broadcast over the batch (`tf.fill`) and
embedded; afterwards the word sampled at the previous step - the last entry
of `sampled_word_list` - is embedded.  The `getD` default is never reached:
after `t` steps the word list has length `t`. -/
def samplerXFrom (w : Weights) (s : ℕ) (st : SamplerState) (t : ℕ) : Mat :=
  if t = 0 then word_embedding_forward (fun _ => s) w.W_embed
  else word_embedding_forward (st.words.getD (t - 1) (fun _ => 0)) w.W_embed

/-- Vocabulary logits of sampler step `t` (`model.py` lines 210-233) as a
function of the carried state: gated context, recurrent-cell advance, then
the decoder - hidden-to-embed affine, optional `prev2out` and `ctx2out`
additions, tanh (no dropout in the sampler), embed-to-vocab affine. -/
def samplerLogitsFrom (A : Act) (g : CaptionGenerator) (w : Weights)
    (features featProj : Tensor3) (s : ℕ) (st : SamplerState) (t : ℕ) : Mat :=
  let x := samplerXFrom w s st t
  let pc := gatedContext A g w features featProj st.h
  let hc := cellAdvance A g w x st.h st.c pc.1
  let l1 : Mat := affine_forward hc.1 w.W1_decode w.b1_decode g.H
  let l2 : Mat := if g.prev2out then fun n m => l1 n m + x n m else l1
  let l3 : Mat := if g.ctx2out then
      fun n m => l2 n m + sumR g.D (fun i => pc.1 n i * w.W_ctx2out i m)
    else l2
  let logitsH : Mat := fun n m => A.tanh (l3 n m)
  affine_forward logitsH w.W2_decode w.b2_decode g.M

/-- One iteration of the `build_sampler` loop (`model.py` lines 202-237):
embed the previous word (or the start token at `t = 0`), compute the gated
context and attention weights, advance the recurrent cell, decode to
vocabulary logits and select the next word by `tf.argmax` (greedy);
the attention weights and the sampled word are appended to their lists. -/
def samplerStepBody (A : Act) (g : CaptionGenerator) (w : Weights)
    (features featProj : Tensor3) (s : ℕ) (st : SamplerState) (t : ℕ) :
    SamplerState :=
  let pc := gatedContext A g w features featProj st.h
  let hc := cellAdvance A g w (samplerXFrom w s st t) st.h st.c pc.1
  let word : ℕ → ℕ := fun n =>
    argmaxR (fun v => samplerLogitsFrom A g w features featProj s st t n v) g.V
  ⟨hc.1, hc.2, st.alphas ++ [pc.2], st.words ++ [word]⟩

/-- The `for t in range(max_len)` loop of `build_sampler` as a fold, starting
from the initial states with empty lists. -/
def samplerSteps (A : Act) (g : CaptionGenerator) (w : Weights)
    (features featProj : Tensor3) (s : ℕ) : ℕ → SamplerState
  | 0 => ⟨samplerH0 A g w features, samplerC0 A g w features, [], []⟩
  | t + 1 => samplerStepBody A g w features featProj s
      (samplerSteps A g w features featProj s t) t

/-- `CaptionGenerator.build_sampler` (`model.py` lines 178-241): the feature
grid is projected once, the loop runs exactly `max_len` iterations with no
early stop, and the collected attention maps and sampled word indices are
returned (for a non-empty collection the final `tf.pack`/`tf.transpose` pair
only reindexes the collected lists, which are returned directly here).  Two
graph-construction error paths are modelled: when the vocabulary has no
START token, `self._start` is `None` and the first iteration fails at the
embedding lookup (`tf.fill` with value `None`); and with `max_len = 0` the
loop body never runs (so the start token is never consulted) and
`tf.pack`/`tf.transpose` of the empty `alpha_list` and `sampled_word_list`
raises, since packing requires at least one tensor. -/
def buildSampler (A : Act) (g : CaptionGenerator) (w : Weights)
    (features : Tensor3) (maxLen : ℕ) :
    Except String (List Mat × List (ℕ → ℕ)) :=
  if maxLen = 0 then Except.error "tf.pack: need at least one tensor to pack"
  else
    match g.startIdx with
    | none => Except.error "build_sampler: embedding index None for <START>"
    | some s =>
        let st := samplerSteps A g w features
          (project_feature features w.W_proj_x g.D) s maxLen
        Except.ok (st.alphas, st.words)

/-- Hidden state of the sampler before step `t`. -/
def samplerHAt (A : Act) (g : CaptionGenerator) (w : Weights)
    (features featProj : Tensor3) (s : ℕ) (t : ℕ) : Mat :=
  (samplerSteps A g w features featProj s t).h

/-- Input embedding actually used by sampler step `t`. -/
def samplerXAt (A : Act) (g : CaptionGenerator) (w : Weights)
    (features featProj : Tensor3) (s : ℕ) (t : ℕ) : Mat :=
  samplerXFrom w s (samplerSteps A g w features featProj s t) t

/-- Vocabulary logits produced at sampler step `t`. -/
def samplerLogitsAt (A : Act) (g : CaptionGenerator) (w : Weights)
    (features featProj : Tensor3) (s : ℕ) (t : ℕ) : Mat :=
  samplerLogitsFrom A g w features featProj s
    (samplerSteps A g w features featProj s t) t

/-- Word selected at sampler step `t`: entry `t` of the word list after
`t + 1` steps. -/
def samplerWordAt (A : Act) (g : CaptionGenerator) (w : Weights)
    (features featProj : Tensor3) (s : ℕ) (t : ℕ) : ℕ → ℕ :=
  (samplerSteps A g w features featProj s (t + 1)).words.getD t (fun _ => 0)

/-- Context vector passed to the recurrent cell and the decoder at sampler
step `t` (after the optional selector gate). -/
def samplerContextAt (A : Act) (g : CaptionGenerator) (w : Weights)
    (features featProj : Tensor3) (s : ℕ) (t : ℕ) : Mat :=
  (gatedContext A g w features featProj
    (samplerSteps A g w features featProj s t).h).1

/-- Stated from the specification's words, for comparison with the source
(claim C1): the loss `build_model` would return if the doubly stochastic
penalty target were `T / L` - "add `alpha_c * sum((T/L - total_mass)^2)` to
the loss".  `buildModel` itself (the source) uses the hard-coded target
`16/196` of `model.py` line 172. -/
def buildModelRatioTarget (A : Act) (g : CaptionGenerator) (w : Weights)
    (N : ℕ) (features : Tensor3) (captions : ℕ → ℕ → ℕ) (d : DropMasks) : ℚ :=
  (sumR g.T (modelStepLoss A g w N features
      (project_feature features w.W_proj_x g.D) captions d
      (modelH0 A g w features d) (modelC0 A g w features d))
    + (if 0 < g.alpha_c then
        g.alpha_c * sumR N (fun n => sumR g.L (fun l =>
          ((g.T : ℚ) / (g.L : ℚ)
            - sumR g.T (fun t => modelAlphaAt A g w N features
                (project_feature features w.W_proj_x g.D) captions d
                (modelH0 A g w features d) (modelC0 A g w features d)
                t n l)) ^ 2))
      else 0)) / (N : ℚ)

/-! ### Concrete instances

Tiny fully concrete models used to evaluate the embedding at explicit
inputs: one-element batch, one or two spatial locations, all dimensions 1
except a two-word vocabulary.  The opaque numeric engine is instantiated
with simple rational functions; the structural facts established on these
instances (which dropout site is active, which penalty target is used, which
caption positions reach the loss) do not depend on the engine functions. -/

/-- All-zero matrix. -/
def zeroM : Mat := fun _ _ => 0

/-- All-one matrix. -/
def oneM : Mat := fun _ _ => 1

/-- Concrete engine bundle: every primitive is the identity. -/
def actId : Act := ⟨id, id, id, id⟩

/-- Concrete engine bundle with constant `exp`, making every softmax
uniform. -/
def actOne : Act := ⟨fun _ => 1, id, id, id⟩

/-- All-zero weight bundle. -/
def wZero : Weights :=
  ⟨zeroM, zeroM, (fun _ => 0), zeroM, (fun _ => 0), zeroM, (fun _ => 0), zeroM,
   (fun _ => 0), zeroM, zeroM, (fun _ => 0), zeroM, zeroM, zeroM, zeroM,
   (fun _ => 0), zeroM, zeroM, (fun _ => 0), zeroM, (fun _ => 0), zeroM,
   (fun _ => 0)⟩

/-- Weights that route the `logits_h` dropout mask into the loss: cell bias 1,
`W1_decode` and `W2_decode` all ones, `b2_decode v = v`, everything else 0. -/
def wDecA : Weights :=
  ⟨zeroM, zeroM, (fun _ => 0), zeroM, (fun _ => 0), zeroM, (fun _ => 0), zeroM,
   (fun _ => 0), zeroM, zeroM, (fun _ => 0), zeroM, zeroM, zeroM, zeroM,
   (fun _ => 1), zeroM, zeroM, (fun _ => 0), oneM, (fun _ => 0), oneM,
   (fun v => (v : ℚ))⟩

/-- Like `wDecA` but with `b2_decode v = 2 * v`. -/
def wDecB : Weights :=
  ⟨zeroM, zeroM, (fun _ => 0), zeroM, (fun _ => 0), zeroM, (fun _ => 0), zeroM,
   (fun _ => 0), zeroM, zeroM, (fun _ => 0), zeroM, zeroM, zeroM, zeroM,
   (fun _ => 1), zeroM, zeroM, (fun _ => 0), oneM, (fun _ => 0), oneM,
   (fun v => 2 * (v : ℚ))⟩

/-- Dropout masks all one (every unit kept) at every site. -/
def dmOnes : DropMasks := ⟨oneM, oneM, oneM, oneM, (fun _ => oneM), (fun _ => oneM)⟩

/-- Dropout masks all one except the `logits_h` site, where every unit is
dropped. -/
def dmZeroLog : DropMasks := ⟨oneM, oneM, oneM, oneM, (fun _ => oneM), (fun _ => zeroM)⟩

/-- Dropout masks all zero except the `logits_h` site, where every unit is
kept: differs from `dmOnes` exactly at the sites guarded by `use_dropout`. -/
def dmHZero : DropMasks := ⟨zeroM, zeroM, zeroM, zeroM, (fun _ => zeroM), (fun _ => oneM)⟩

/-- Tiny configuration with an active attention regularizer: plain cell,
`alpha_c = 1`, two locations, one unroll step, two-word vocabulary, every
optional path disabled. -/
def gAlphaReg : CaptionGenerator :=
  ⟨"rnn", false, false, 1, false, false, 2, 2, 1, 1, 1, 1, 0, some 1⟩

/-- Tiny configuration with dropout disabled by construction
(`use_dropout = False`), no regularizer, no selector, plain cell. -/
def gNoDrop : CaptionGenerator :=
  ⟨"rnn", false, false, 0, false, false, 2, 1, 1, 1, 1, 1, 0, some 1⟩

/-- The instance `CaptionGenerator.init` builds from the vocabulary
containing only the NULL token: construction succeeds and `_start` is
`None`. -/
def gNoStart : CaptionGenerator :=
  ⟨"rnn", false, false, 0, false, false, 1, 1, 1, 1, 1, 1, 0, none⟩

/-- All-zero feature grid. -/
def fZero : Tensor3 := fun _ _ _ => 0

/-- Caption batch that is NULL everywhere. -/
def capsNull : ℕ → ℕ → ℕ := fun _ _ => 0

/-- Caption batch that holds word 1 everywhere: every target position is
unmasked. -/
def capsOnes : ℕ → ℕ → ℕ := fun _ _ => 1

/-- Caption batch holding word 1 at position 0 and NULL afterwards: every
target position is masked out. -/
def capsStart : ℕ → ℕ → ℕ := fun _ t => if t = 0 then 1 else 0

/-! ### Helper lemmas -/

/-- Summing a mapped `List.range` agrees with the `Finset.range` sum. -/
lemma listRangeMapSum (f : ℕ → ℚ) : ∀ n : ℕ,
    ((List.range n).map f).sum = sumR n f := by
  intro n
  induction n with
  | zero => simp [sumR]
  | succ n ih =>
      rw [List.range_succ, List.map_append, List.sum_append, ih]
      simp [sumR, Finset.sum_range_succ]

/-- Reading the entry just appended to a list. -/
lemma getD_concat_len {α : Type} : ∀ (l : List α) (a d : α),
    (l ++ [a]).getD l.length d = a := by
  intro l
  induction l with
  | nil => intro a d; rfl
  | cons x xs ih => intro a d; simp [ih a d]

/-- The `build_model` fold equals its state-trace description: after `t`
iterations the carried state is `modelHC t`, the accumulated loss is the sum
of the per-step masked cross-entropies, and `alpha_list` holds the per-step
attention weights in order. -/
lemma modelLoop_eq (A : Act) (g : CaptionGenerator) (w : Weights) (N : ℕ)
    (features featProj : Tensor3) (captions : ℕ → ℕ → ℕ) (d : DropMasks)
    (h0 c0 : Mat) : ∀ t : ℕ,
    modelLoop A g w N features featProj captions d h0 c0 t =
      ⟨(modelHC A g w N features featProj captions d h0 c0 t).1,
       (modelHC A g w N features featProj captions d h0 c0 t).2,
       sumR t (modelStepLoss A g w N features featProj captions d h0 c0),
       (List.range t).map
         (modelAlphaAt A g w N features featProj captions d h0 c0)⟩ := by
  intro t
  induction t with
  | zero => simp [modelLoop, modelHC, sumR]
  | succ t ih =>
      simp only [modelLoop, ih, modelHC, modelStepLoss, modelStepAt,
        modelAlphaAt, sumR, Finset.sum_range_succ, List.range_succ,
        List.map_append, List.map_cons, List.map_nil]

/-- Collapsing the packed `alpha_list` projection at one batch/location index
into a `Finset.range` sum over the time steps. -/
lemma mapMapSum (F : ℕ → Mat) (T n l : ℕ) :
    (List.map (fun a => a n l) (List.map F (List.range T))).sum =
      sumR T (fun t => F t n l) := by
  rw [List.map_map, listRangeMapSum]
  rfl

/-- Closed form of the `build_model` loss: the masked-summed per-step
cross-entropies over all `T` steps, plus - exactly when `alpha_c > 0` - the
doubly stochastic penalty with its hard-coded `16/196` target, divided by
the batch size `N`. -/
lemma buildModel_closed (A : Act) (g : CaptionGenerator) (w : Weights) (N : ℕ)
    (features : Tensor3) (captions : ℕ → ℕ → ℕ) (d : DropMasks) :
    buildModel A g w N features captions d =
      (sumR g.T (modelStepLoss A g w N features
          (project_feature features w.W_proj_x g.D) captions d
          (modelH0 A g w features d) (modelC0 A g w features d))
        + (if 0 < g.alpha_c then
            g.alpha_c * sumR N (fun n => sumR g.L (fun l =>
              ((16 : ℚ) / 196
                - sumR g.T (fun t => modelAlphaAt A g w N features
                    (project_feature features w.W_proj_x g.D) captions d
                    (modelH0 A g w features d) (modelC0 A g w features d)
                    t n l)) ^ 2))
          else 0)) / (N : ℚ) := by
  unfold buildModel
  simp only [modelLoop_eq, mapMapSum]
  by_cases hac : 0 < g.alpha_c
  · simp only [hac, if_true]
  · simp only [hac, if_false, add_zero]

/-- With dropout disabled the State Initializer ignores its masks. -/
lemma init_lstm_mask_congr (A : Act) (x : Mat) (W1 : Mat) (b1 : Vec) (W2 : Mat)
    (b2 : Vec) (D H : ℕ) (m1 m2 m1' m2' : Mat) :
    init_lstm A x W1 b1 W2 b2 D H false m1 m2 =
      init_lstm A x W1 b1 W2 b2 D H false m1' m2' := by
  simp [init_lstm]

/-- With `use_dropout = False` a training step depends on the mask source
only through the unconditional `logits_h` dropout masks. -/
lemma modelStepFull_mask_congr (A : Act) (g : CaptionGenerator) (w : Weights)
    (N : ℕ) (features featProj : Tensor3) (captions : ℕ → ℕ → ℕ)
    (d d' : DropMasks) (t : ℕ) (h c : Mat)
    (hud : g.useDropout = false) (hsl : d.stepLogits = d'.stepLogits) :
    modelStepFull A g w N features featProj captions d t h c =
      modelStepFull A g w N features featProj captions d' t h c := by
  simp [modelStepFull, hud, hsl]

/-- With `use_dropout = False` the whole training unroll depends on the mask
source only through the `logits_h` dropout masks. -/
lemma modelLoop_mask_congr (A : Act) (g : CaptionGenerator) (w : Weights)
    (N : ℕ) (features featProj : Tensor3) (captions : ℕ → ℕ → ℕ)
    (d d' : DropMasks) (h0 c0 : Mat)
    (hud : g.useDropout = false) (hsl : d.stepLogits = d'.stepLogits) :
    ∀ t : ℕ,
    modelLoop A g w N features featProj captions d h0 c0 t =
      modelLoop A g w N features featProj captions d' h0 c0 t := by
  intro t
  induction t with
  | zero => rfl
  | succ t ih =>
      simp only [modelLoop, ih,
        modelStepFull_mask_congr A g w N features featProj captions d d' t
          _ _ hud hsl]

/-- With `use_dropout = False` the `build_model` loss depends on the mask
source only through the unconditional `logits_h` dropout masks. -/
lemma buildModel_mask_congr (A : Act) (g : CaptionGenerator) (w : Weights)
    (N : ℕ) (features : Tensor3) (captions : ℕ → ℕ → ℕ) (d d' : DropMasks)
    (hud : g.useDropout = false) (hsl : d.stepLogits = d'.stepLogits) :
    buildModel A g w N features captions d =
      buildModel A g w N features captions d' := by
  have hh0 : modelH0 A g w features d = modelH0 A g w features d' := by
    unfold modelH0
    rw [hud]
    exact init_lstm_mask_congr _ _ _ _ _ _ _ _ _ _ _ _
  have hc0 : modelC0 A g w features d = modelC0 A g w features d' := by
    unfold modelC0
    rw [hud]
    exact init_lstm_mask_congr _ _ _ _ _ _ _ _ _ _ _ _
  simp only [buildModel]
  rw [hh0, hc0, modelLoop_mask_congr A g w N features _ captions d d' _ _ hud hsl]

/-- After `t` sampler iterations both collected lists have length `t`. -/
lemma samplerSteps_lengths (A : Act) (g : CaptionGenerator) (w : Weights)
    (features featProj : Tensor3) (s : ℕ) : ∀ t : ℕ,
    (samplerSteps A g w features featProj s t).alphas.length = t ∧
      (samplerSteps A g w features featProj s t).words.length = t := by
  intro t
  induction t with
  | zero => exact ⟨rfl, rfl⟩
  | succ t ih =>
      simp [samplerSteps, samplerStepBody, ih.1, ih.2]

/-- Reading the entry just appended to a list, stated through an explicit
length equation. -/
lemma getD_append_len {α : Type} (l : List α) (a d : α) (n : ℕ)
    (h : l.length = n) : (l ++ [a]).getD n d = a := by
  subst h
  exact getD_concat_len l a d

/-! ### Claim theorems -/

/-- C1, counterexample: the claim states that with `alpha_c > 0` the term
added to the loss after the unroll is `alpha_c * sum((T/L - total_mass)^2)`
for every valid configuration of `T` and `L`.  At the concrete configuration
`T = 1`, `L = 2` (with `alpha_c = 1`) the loss `build_model` returns differs
from the value the claim prescribes: the code hard-codes the target
`16/196` (`model.py` line 172), not `T/L = 1/2`. -/
theorem c1_penalty_target_counterexample :
    0 < gAlphaReg.alpha_c ∧
      buildModel actOne gAlphaReg wZero 1 fZero capsNull dmOnes ≠
        buildModelRatioTarget actOne gAlphaReg wZero 1 fZero capsNull dmOnes := by
  refine ⟨by norm_num [gAlphaReg], ?_⟩
  have h1 : buildModel actOne gAlphaReg wZero 1 fZero capsNull dmOnes
      = 1681 / 4802 := by
    with_unfolding_all rfl
  have h2 : buildModelRatioTarget actOne gAlphaReg wZero 1 fZero capsNull dmOnes
      = 0 := by
    with_unfolding_all rfl
  rw [h1, h2]
  norm_num

/-- C1, amended: when `alpha_c > 0`, the term added to the loss after the
`T`-step unroll equals `alpha_c * sum((16/196 - total_mass)^2)`: the penalty
target is the hard-coded constant `16/196` (the default `T = 16`,
`L = 196` ratio), not the configured `T/L`. -/
theorem c1_penalty_target_amended (A : Act) (g : CaptionGenerator)
    (w : Weights) (N : ℕ) (features : Tensor3) (captions : ℕ → ℕ → ℕ)
    (d : DropMasks) (hac : 0 < g.alpha_c) :
    buildModel A g w N features captions d =
      (sumR g.T (modelStepLoss A g w N features
          (project_feature features w.W_proj_x g.D) captions d
          (modelH0 A g w features d) (modelC0 A g w features d))
        + g.alpha_c * sumR N (fun n => sumR g.L (fun l =>
            ((16 : ℚ) / 196
              - sumR g.T (fun t => modelAlphaAt A g w N features
                  (project_feature features w.W_proj_x g.D) captions d
                  (modelH0 A g w features d) (modelC0 A g w features d)
                  t n l)) ^ 2))) / (N : ℚ) := by
  rw [buildModel_closed, if_pos hac]

/-- C1, witness: the amended statement applied to the concrete regularized
model. -/
theorem c1_penalty_target_witness :
    0 < gAlphaReg.alpha_c ∧
      buildModel actOne gAlphaReg wZero 1 fZero capsNull dmOnes =
        (sumR gAlphaReg.T (modelStepLoss actOne gAlphaReg wZero 1 fZero
            (project_feature fZero wZero.W_proj_x gAlphaReg.D) capsNull dmOnes
            (modelH0 actOne gAlphaReg wZero fZero dmOnes)
            (modelC0 actOne gAlphaReg wZero fZero dmOnes))
          + gAlphaReg.alpha_c * sumR 1 (fun n => sumR gAlphaReg.L (fun l =>
              ((16 : ℚ) / 196
                - sumR gAlphaReg.T (fun t => modelAlphaAt actOne gAlphaReg
                    wZero 1 fZero
                    (project_feature fZero wZero.W_proj_x gAlphaReg.D)
                    capsNull dmOnes
                    (modelH0 actOne gAlphaReg wZero fZero dmOnes)
                    (modelC0 actOne gAlphaReg wZero fZero dmOnes)
                    t n l)) ^ 2))) / ((1 : ℕ) : ℚ) :=
  ⟨by norm_num [gAlphaReg],
   c1_penalty_target_amended actOne gAlphaReg wZero 1 fZero capsNull dmOnes
     (by norm_num [gAlphaReg])⟩

/-- C2: with `use_dropout = False` the training loss is still not
deterministic - at a concrete model the loss evaluates to `-3/5` when the
`logits_h` dropout mask keeps its unit and to `-1` when it drops it, because
the dropout of `model.py` line 162 is applied unconditionally.  (The two
mask sources differ only at the `logits_h` site.) -/
theorem c2_dropout_disabled_not_deterministic :
    gNoDrop.useDropout = false ∧
      buildModel actId gNoDrop wDecA 1 fZero capsOnes dmOnes ≠
        buildModel actId gNoDrop wDecA 1 fZero capsOnes dmZeroLog := by
  refine ⟨rfl, ?_⟩
  have h1 : buildModel actId gNoDrop wDecA 1 fZero capsOnes dmOnes
      = -3 / 5 := by
    with_unfolding_all rfl
  have h2 : buildModel actId gNoDrop wDecA 1 fZero capsOnes dmZeroLog
      = -1 := by
    with_unfolding_all rfl
  rw [h1, h2]
  norm_num

/-- C3: dropout on the tanh-activated decoder intermediate `logits_h` is
applied unconditionally.  First conjunct: with `use_dropout = false` the
loss is invariant under every change of the flag-guarded mask sites (the
state-initializer masks and the per-step hidden-state masks) - the flag
controls only those sites.  Second conjunct: with `use_dropout = false` the
loss still changes when only the `logits_h` masks change, so
`use_dropout = False` does not remove all dropout from the training forward
pass. -/
theorem c3_logits_dropout_unconditional :
    (∀ (A : Act) (g : CaptionGenerator) (w : Weights) (N : ℕ)
        (features : Tensor3) (captions : ℕ → ℕ → ℕ) (d d' : DropMasks),
        g.useDropout = false → d.stepLogits = d'.stepLogits →
        buildModel A g w N features captions d =
          buildModel A g w N features captions d') ∧
      buildModel actId gNoDrop wDecB 1 fZero capsOnes dmOnes ≠
        buildModel actId gNoDrop wDecB 1 fZero capsOnes dmZeroLog := by
  refine ⟨fun A g w N features captions d d' hud hsl =>
    buildModel_mask_congr A g w N features captions d d' hud hsl, ?_⟩
  have h1 : buildModel actId gNoDrop wDecB 1 fZero capsOnes dmOnes
      = -2 / 3 := by
    with_unfolding_all rfl
  have h2 : buildModel actId gNoDrop wDecB 1 fZero capsOnes dmZeroLog
      = -1 := by
    with_unfolding_all rfl
  rw [h1, h2]
  norm_num

/-- C3, witness: the invariance conjunct applied to a concrete model with
`use_dropout = false` and two mask sources that differ at every flag-guarded
site but agree at the `logits_h` site. -/
theorem c3_logits_dropout_unconditional_witness :
    buildModel actId gNoDrop wDecB 1 fZero capsOnes dmOnes =
      buildModel actId gNoDrop wDecB 1 fZero capsOnes dmHZero :=
  c3_logits_dropout_unconditional.1 actId gNoDrop wDecB 1 fZero capsOnes
    dmOnes dmHZero rfl rfl

/-- C6: the value `build_model` returns is the total accumulated loss - the
masked-summed per-step cross-entropies over all `T` steps plus the optional
attention penalty (present exactly when `alpha_c > 0`) - divided by the
batch size `N`, with no division by the number of unmasked tokens. -/
theorem c6_loss_divided_by_batch_size (A : Act) (g : CaptionGenerator)
    (w : Weights) (N : ℕ) (features : Tensor3) (captions : ℕ → ℕ → ℕ)
    (d : DropMasks) :
    buildModel A g w N features captions d =
      (sumR g.T (modelStepLoss A g w N features
          (project_feature features w.W_proj_x g.D) captions d
          (modelH0 A g w features d) (modelC0 A g w features d))
        + (if 0 < g.alpha_c then
            g.alpha_c * sumR N (fun n => sumR g.L (fun l =>
              ((16 : ℚ) / 196
                - sumR g.T (fun t => modelAlphaAt A g w N features
                    (project_feature features w.W_proj_x g.D) captions d
                    (modelH0 A g w features d) (modelC0 A g w features d)
                    t n l)) ^ 2))
          else 0)) / (N : ℚ) :=
  buildModel_closed A g w N features captions d

/-- C4: for every vocabulary containing a NULL token but no START token,
construction with a recognized cell variant succeeds and stores `None` for
the start index (`word_to_idx.get`, `model.py` line 51), yet `build_sampler`
fails for every positive `max_len`, because step `t = 0` embeds
`self._start` for the whole batch (`model.py` lines 204-205). -/
theorem c4_sampler_requires_start_token
    (wordToIdx : List (String × ℕ)) (dimF : ℕ × ℕ) (dE dH nT : ℕ)
    (p2 c2 : Bool) (ac : ℚ) (sel ud : Bool) (nullIdx : ℕ)
    (hNull : lookup wordToIdx "<NULL>" = some nullIdx)
    (hStart : lookup wordToIdx "<START>" = none) :
    ∃ g : CaptionGenerator,
      CaptionGenerator.init wordToIdx dimF dE dH nT "rnn" p2 c2 ac sel ud =
        Except.ok g ∧
      g.startIdx = none ∧
      ∀ (A : Act) (w : Weights) (features : Tensor3) (maxLen : ℕ),
        1 ≤ maxLen →
        buildSampler A g w features maxLen =
          Except.error "build_sampler: embedding index None for <START>" := by
  refine ⟨⟨"rnn", p2, c2, ac, sel, ud, wordToIdx.length, dimF.1, dimF.2, dE,
    dH, nT, nullIdx, lookup wordToIdx "<START>"⟩, ?_, hStart, ?_⟩
  · unfold CaptionGenerator.init
    rw [if_neg (by simp), hNull]
  · intro A w features maxLen hml
    have hz : maxLen ≠ 0 := by omega
    unfold buildSampler
    rw [if_neg hz]
    simp only [hStart]

/-- C4, witness: the theorem applied to the concrete one-word vocabulary
holding only the NULL token. -/
theorem c4_sampler_requires_start_token_witness :
    ∃ g : CaptionGenerator,
      CaptionGenerator.init [("<NULL>", 0)] (196, 512) 512 1024 16 "rnn" true
          true 0 true true = Except.ok g ∧
        g.startIdx = none ∧
        ∀ (A : Act) (w : Weights) (features : Tensor3) (maxLen : ℕ),
          1 ≤ maxLen →
          buildSampler A g w features maxLen =
            Except.error "build_sampler: embedding index None for <START>" :=
  c4_sampler_requires_start_token [("<NULL>", 0)] (196, 512) 512 1024 16 true
    true 0 true true 0 rfl rfl

/-- C5, counterexample: two caption batches that agree at position 0 and at
every unmasked target position of the first batch (whose mask is false
everywhere), yet produce different `build_model` losses: changing a stored
padding value from NULL to word 1 flips the recomputed mask and adds an
unmasked cross-entropy term. -/
theorem c5_mask_invariance_counterexample :
    (∀ n, capsStart n 0 = capsOnes n 0) ∧
      (∀ n t, t < gNoDrop.T →
        capsStart n (t + 1) ≠ gNoDrop.nullIdx →
        capsStart n (t + 1) = capsOnes n (t + 1)) ∧
      buildModel actId gNoDrop wDecA 1 fZero capsStart dmOnes ≠
        buildModel actId gNoDrop wDecA 1 fZero capsOnes dmOnes := by
  refine ⟨fun n => rfl, fun n t _ h => absurd rfl h, ?_⟩
  have h1 : buildModel actId gNoDrop wDecA 1 fZero capsStart dmOnes = 0 := by
    with_unfolding_all rfl
  have h2 : buildModel actId gNoDrop wDecA 1 fZero capsOnes dmOnes
      = -3 / 5 := by
    with_unfolding_all rfl
  rw [h1, h2]
  norm_num

/-- C5, amended: the per-step masked cross-entropy `softmax_loss` never
reads the label at a position whose mask is false, so the loss is invariant
under changes of the label argument at masked positions when the mask and
every other input are held fixed.  Full invariance of `build_model` under
changes to stored padding caption values fails, because the mask is
recomputed from the changed captions and padding positions of `captions_in`
feed the input embeddings. -/
theorem c5_mask_invariance_amended (A : Act) (logits : Mat)
    (labels labels' : ℕ → ℕ) (mask : ℕ → Bool) (N V : ℕ)
    (h : ∀ n, mask n = true → labels n = labels' n) :
    softmax_loss A logits labels mask N V =
      softmax_loss A logits labels' mask N V := by
  unfold softmax_loss sumR
  refine Finset.sum_congr rfl (fun n _ => ?_)
  by_cases hm : mask n = true
  · rw [if_pos hm, if_pos hm, h n hm]
  · rw [if_neg hm, if_neg hm]

/-- C5, witness: the amended statement at a concrete masked batch whose two
label functions differ exactly at the masked position. -/
theorem c5_mask_invariance_witness :
    softmax_loss actId zeroM (fun _ => 0) (fun n => decide (n = 0)) 2 2 =
      softmax_loss actId zeroM (fun n => if n = 0 then 0 else 1)
        (fun n => decide (n = 0)) 2 2 :=
  c5_mask_invariance_amended actId zeroM (fun _ => 0)
    (fun n => if n = 0 then 0 else 1) (fun n => decide (n = 0)) 2 2
    (fun n h => by
      have hn : n = 0 := of_decide_eq_true h
      subst hn
      rfl)

/-- C7, counterexample: the claim quantifies over every vocabulary and every
`max_len`, but it fails at two explicit inputs.  For the constructible model
whose vocabulary lacks a START token, `build_sampler` fails at step 0
instead of returning `max_len` attention maps and sampled words (compare
claim C4); and even for a model with a START token, at `max_len = 0` the
`tf.pack` of the empty collected lists raises instead of returning zero
maps. -/
theorem c7_sampler_length_counterexample :
    CaptionGenerator.init [("<NULL>", 0)] (1, 1) 1 1 1 "rnn" false false 0
        false false = Except.ok gNoStart ∧
      buildSampler actId gNoStart wZero fZero 1 =
        Except.error "build_sampler: embedding index None for <START>" ∧
      buildSampler actId gNoDrop wZero fZero 0 =
        Except.error "tf.pack: need at least one tensor to pack" := by
  refine ⟨?_, rfl, rfl⟩
  with_unfolding_all rfl

/-- C7, amended: for every `max_len` of at least one, every model whose
vocabulary contains a START token, and every feature grid, `build_sampler`
runs exactly `max_len` steps with no early stop and returns exactly
`max_len` attention maps and exactly `max_len` sampled word indices (at
`max_len = 0` the final `tf.pack` of the empty collections fails instead). -/
theorem c7_sampler_length_amended (A : Act) (g : CaptionGenerator)
    (w : Weights) (features : Tensor3) (maxLen : ℕ) (s : ℕ)
    (hs : g.startIdx = some s) (hml : 1 ≤ maxLen) :
    ∃ alphas words,
      buildSampler A g w features maxLen = Except.ok (alphas, words) ∧
        alphas.length = maxLen ∧ words.length = maxLen := by
  cases maxLen with
  | zero => exact absurd hml (by omega)
  | succ m =>
      refine ⟨(samplerSteps A g w features
          (project_feature features w.W_proj_x g.D) s (m + 1)).alphas,
        (samplerSteps A g w features
          (project_feature features w.W_proj_x g.D) s (m + 1)).words,
        ?_, ?_, ?_⟩
      · unfold buildSampler
        rw [if_neg (Nat.succ_ne_zero m)]
        simp only [hs]
      · exact (samplerSteps_lengths A g w features
          (project_feature features w.W_proj_x g.D) s (m + 1)).1
      · exact (samplerSteps_lengths A g w features
          (project_feature features w.W_proj_x g.D) s (m + 1)).2

/-- C7, witness: the amended statement at a concrete model containing a
START token, with `max_len = 3`. -/
theorem c7_sampler_length_witness :
    ∃ alphas words,
      buildSampler actId gNoDrop wZero fZero 3 = Except.ok (alphas, words) ∧
        alphas.length = 3 ∧ words.length = 3 :=
  c7_sampler_length_amended actId gNoDrop wZero fZero 3 1 rfl (by omega)

/-- C8: in `build_sampler` the input embedding at step 0 is the start-token
embedding broadcast across the batch, at every step `t + 1` it is the
embedding of the word selected at step `t`, and the word selected at each
step is the argmax over the vocabulary logits of that step (greedy
decoding). -/
theorem c8_greedy_argmax_feedback (A : Act) (g : CaptionGenerator)
    (w : Weights) (features featProj : Tensor3) (s t : ℕ) :
    samplerXAt A g w features featProj s 0 =
        word_embedding_forward (fun _ => s) w.W_embed ∧
      samplerXAt A g w features featProj s (t + 1) =
        word_embedding_forward (samplerWordAt A g w features featProj s t)
          w.W_embed ∧
      samplerWordAt A g w features featProj s t = fun n =>
        argmaxR (fun v => samplerLogitsAt A g w features featProj s t n v)
          g.V := by
  refine ⟨rfl, rfl, ?_⟩
  show (samplerSteps A g w features featProj s (t + 1)).words.getD t
      (fun _ => 0) = _
  simp only [samplerSteps, samplerStepBody]
  exact getD_append_len _ _ _ _
    (samplerSteps_lengths A g w features featProj s t).2

/-- C9: with the selector gate disabled, the context vector passed to the
recurrent cell and the decoder at every step of both drivers is exactly the
Attention Module output, unchanged. -/
theorem c9_selector_disabled_identity (A : Act) (g : CaptionGenerator)
    (w : Weights) (N : ℕ) (features featProj : Tensor3)
    (captions : ℕ → ℕ → ℕ) (d : DropMasks) (h0 c0 : Mat) (s t : ℕ)
    (hsel : g.selector = false) :
    modelContextAt A g w N features featProj captions d h0 c0 t =
        (attention_forward A features featProj
          (modelHC A g w N features featProj captions d h0 c0 t).1
          w.W_proj_h w.b_proj w.W_att g.L g.D g.H).1 ∧
      samplerContextAt A g w features featProj s t =
        (attention_forward A features featProj
          (samplerHAt A g w features featProj s t)
          w.W_proj_h w.b_proj w.W_att g.L g.D g.H).1 := by
  constructor
  · simp [modelContextAt, gatedContext, hsel]
  · simp [samplerContextAt, samplerHAt, gatedContext, hsel]

/-- C9, witness: the theorem applied to the concrete selector-free model at
step 0 of both drivers. -/
theorem c9_selector_disabled_identity_witness :
    modelContextAt actId gNoDrop wZero 1 fZero fZero capsOnes dmOnes zeroM
        zeroM 0 =
        (attention_forward actId fZero fZero
          (modelHC actId gNoDrop wZero 1 fZero fZero capsOnes dmOnes zeroM
            zeroM 0).1
          wZero.W_proj_h wZero.b_proj wZero.W_att gNoDrop.L gNoDrop.D
          gNoDrop.H).1 ∧
      samplerContextAt actId gNoDrop wZero fZero fZero 1 0 =
        (attention_forward actId fZero fZero
          (samplerHAt actId gNoDrop wZero fZero fZero 1 0)
          wZero.W_proj_h wZero.b_proj wZero.W_att gNoDrop.L gNoDrop.D
          gNoDrop.H).1 :=
  c9_selector_disabled_identity actId gNoDrop wZero 1 fZero fZero capsOnes
    dmOnes zeroM zeroM 1 0 rfl

/-- C10: constructing a `CaptionGenerator` with a cell variant other than
the two recognized values is rejected immediately with the invalid-cell-type
error, for every vocabulary and every other argument (the check precedes
everything else); with either recognized value the construction never
produces that error. -/
theorem c10_cell_type_validation :
    (∀ (wordToIdx : List (String × ℕ)) (dimF : ℕ × ℕ) (dE dH nT : ℕ)
        (ct : String) (p2 c2 : Bool) (ac : ℚ) (sel ud : Bool),
        ct ≠ "rnn" → ct ≠ "lstm" →
        CaptionGenerator.init wordToIdx dimF dE dH nT ct p2 c2 ac sel ud =
          Except.error ("Invalid cell_type " ++ ct)) ∧
      (∀ (wordToIdx : List (String × ℕ)) (dimF : ℕ × ℕ) (dE dH nT : ℕ)
        (ct : String) (p2 c2 : Bool) (ac : ℚ) (sel ud : Bool),
        ct = "rnn" ∨ ct = "lstm" →
        CaptionGenerator.init wordToIdx dimF dE dH nT ct p2 c2 ac sel ud ≠
          Except.error ("Invalid cell_type " ++ ct)) := by
  constructor
  · intro wordToIdx dimF dE dH nT ct p2 c2 ac sel ud h1 h2
    unfold CaptionGenerator.init
    rw [if_pos ⟨h1, h2⟩]
  · intro wordToIdx dimF dE dH nT ct p2 c2 ac sel ud hct
    unfold CaptionGenerator.init
    rcases hct with rfl | rfl
    all_goals
      rw [if_neg (by simp)]
      cases hl : lookup wordToIdx "<NULL>" <;> simp

/-- C10, witness: the rejection at the unrecognized variant "gru" and the
absence of this error at the recognized variant "rnn". -/
theorem c10_cell_type_validation_witness :
    CaptionGenerator.init [("<NULL>", 0)] (196, 512) 512 1024 16 "gru" true
        true 0 true true = Except.error ("Invalid cell_type " ++ "gru") ∧
      CaptionGenerator.init [("<NULL>", 0)] (196, 512) 512 1024 16 "rnn" true
        true 0 true true ≠ Except.error ("Invalid cell_type " ++ "rnn") :=
  ⟨c10_cell_type_validation.1 [("<NULL>", 0)] (196, 512) 512 1024 16 "gru"
      true true 0 true true (by decide) (by decide),
    c10_cell_type_validation.2 [("<NULL>", 0)] (196, 512) 512 1024 16 "rnn"
      true true 0 true true (Or.inl rfl)⟩

end ShowAttendTell
